import Mathlib

/-!
Verification of the DGA-detection notebook pipeline
(`dga-detection/training-tuning-inference/DGA_Detection.ipynb`).

The notebook's helper modules (`utils.str2ascii`, `dga_detector.DGADetector`,
`dataloader`, `dga_dataset`, `rnn_classifier`) are referenced but not present
in the repository; where a claim depends on them, the corresponding
definition is modelled from the specification and marked as such in its doc
comment.  Everything else is embedded directly from the notebook cells.
-/

namespace DGADetection

/-- Modelled from the spec: the width-W character encoder (the repository's
`utils.str2ascii` together with the width-100 truncation applied by
`DGADataset`/`train_model`, neither of which is under the repository's source
tree).  Contract (spec §4.1): a length-W sequence of integer character codes
(ASCII value per character, 0-padded on the right if shorter than W,
truncated if longer), and the true character count capped at W.  Pure
transform, no side effects. -/
def encodeDomain (W : Nat) (s : String) : List Nat × Nat :=
  let codes := (s.toList.take W).map Char.toNat
  (codes ++ List.replicate (W - codes.length) 0, min s.length W)

/-- The encoder applied to a sequence of domain strings, one output per
string, in input order. -/
def encodeDomains (W : Nat) (ds : List String) : List (List Nat × Nat) :=
  ds.map (encodeDomain W)

theorem encodeDomain_codes_length (W : Nat) (s : String) :
    ((s.toList.take W).map Char.toNat).length = min W s.length := by
  rw [List.length_map, List.length_take, String.toList, String.length_data]

theorem encodeDomain_fst_length (W : Nat) (s : String) :
    (encodeDomain W s).1.length = W := by
  have h := encodeDomain_codes_length W s
  simp only [encodeDomain, List.length_append, List.length_replicate]
  omega

theorem encodeDomain_snd (W : Nat) (s : String) :
    (encodeDomain W s).2 = min s.length W := rfl

theorem encodeDomain_fst (W : Nat) (s : String) :
    (encodeDomain W s).1 =
      (s.toList.take W).map Char.toNat ++
        List.replicate (W - min s.length W) 0 := by
  have h := encodeDomain_codes_length W s
  simp only [encodeDomain, h, Nat.min_comm W s.length]

/-- C1: for every sequence of domain strings and maximum width W, the encoder
returns for each string a length-W sequence of integer character codes (the
ASCII value of each character, zero-padded on the right if shorter than W,
truncated if longer) together with the true character count capped at W; for
the empty string it returns length 0 and an all-zero sequence; the transform
is pure (a mathematical function of its arguments).  For the inputs "google"
and "xkqjzwpqor" with W = 20, it produces two length-20 sequences with true
lengths 6 and 10, whose first 6 and 10 entries are the ASCII codes of the
characters and whose remaining entries are zero. -/
theorem c1_encoder_contract :
    (∀ (W : Nat) (ds : List String),
      encodeDomains W ds = ds.map (encodeDomain W)) ∧
    (∀ (W : Nat) (s : String),
      (encodeDomain W s).1.length = W ∧
      (encodeDomain W s).2 = min s.length W ∧
      (encodeDomain W s).1 =
        (s.toList.take W).map Char.toNat ++
          List.replicate (W - min s.length W) 0) ∧
    (∀ W : Nat, encodeDomain W "" = (List.replicate W 0, 0)) ∧
    encodeDomains 20 ["google", "xkqjzwpqor"] =
      [([103, 111, 111, 103, 108, 101,
         0, 0, 0, 0, 0, 0, 0, 0, 0, 0, 0, 0, 0, 0], 6),
       ([120, 107, 113, 106, 122, 119, 112, 113, 111, 114,
         0, 0, 0, 0, 0, 0, 0, 0, 0, 0], 10)] := by
  refine ⟨fun W ds => rfl, fun W s => ⟨encodeDomain_fst_length W s,
    encodeDomain_snd W s, encodeDomain_fst W s⟩, fun W => ?_, by decide⟩
  simp [encodeDomain]

/-- C2: for every domain string of length at most W, encoding the string and
then taking the first `len` codes of the padded sequence (where `len` is the
recorded true length) recovers exactly the original ASCII codes in their
original order; for every string longer than W, the encoded sequence has
exactly W codes and the recorded length equals W. -/
theorem c2_encode_roundtrip (W : Nat) (s : String) :
    (s.length ≤ W →
      (encodeDomain W s).2 = s.length ∧
      (encodeDomain W s).1.take (encodeDomain W s).2 =
        s.toList.map Char.toNat) ∧
    (W < s.length →
      (encodeDomain W s).1.length = W ∧ (encodeDomain W s).2 = W) := by
  constructor
  · intro h
    have hlen : (encodeDomain W s).2 = s.length := by
      rw [encodeDomain_snd]; omega
    refine ⟨hlen, ?_⟩
    have htake : s.toList.take W = s.toList := by
      apply List.take_of_length_le
      rw [String.toList, String.length_data]; exact h
    have hcodes := encodeDomain_codes_length W s
    rw [encodeDomain_fst, hlen, htake]
    rw [htake] at hcodes
    rw [List.take_append_of_le_length, List.take_of_length_le]
    · rw [hcodes]; omega
    · rw [hcodes]; omega
  · intro h
    refine ⟨encodeDomain_fst_length W s, ?_⟩
    rw [encodeDomain_snd]; omega

/-- Witness for C2 at concrete inputs: "abc" with W = 5 (short case) and
"xkqjzwpqor" with W = 4 (long case). -/
theorem c2_encode_roundtrip_witness :
    ("abc".length ≤ 5 ∧
      (encodeDomain 5 "abc").2 = "abc".length ∧
      (encodeDomain 5 "abc").1.take (encodeDomain 5 "abc").2 =
        "abc".toList.map Char.toNat) ∧
    (4 < "xkqjzwpqor".length ∧
      (encodeDomain 4 "xkqjzwpqor").1.length = 4 ∧
      (encodeDomain 4 "xkqjzwpqor").2 = 4) :=
  ⟨⟨by decide, (c2_encode_roundtrip 5 "abc").1 (by decide)⟩,
   ⟨by decide, (c2_encode_roundtrip 4 "xkqjzwpqor").2 (by decide)⟩⟩

/-- A 2-dimensional integer tensor: row-major data plus the device flag set
by `.cuda()`. -/
structure Tensor2D where
  data : List (List Nat)
  onGpu : Bool
deriving DecidableEq

/-- A 1-dimensional integer tensor plus the device flag set by `.cuda()`. -/
structure Tensor1D where
  data : List Nat
  onGpu : Bool
deriving DecidableEq

/-- The width of the code matrix produced by `str2ascii` on a batch: the
maximum string length occurring in the batch. -/
def batchWidth (rows : List String) : Nat :=
  (rows.map String.length).foldr max 0

/-- Modelled from the spec: `utils.str2ascii` (not under the repository's
source tree).  For a dataframe column of domain strings it yields, per row,
the true character count (the `len` column) and the row of ASCII character
codes, zero-padded on the right to the batch-maximum width. -/
def str2ascii (rows : List String) : List (Nat × List Nat) :=
  rows.map fun s =>
    (s.length,
     s.toList.map Char.toNat ++ List.replicate (batchWidth rows - s.length) 0)

/-- The notebook's `preprocess(df, pad_max_len)` cell.  The dataframe is
modelled by its `domain` column.  `df[0:32]` keeps only the first 32 rows;
`str2ascii` encodes them; the `len` column becomes the length tensor; the
code matrix is written into the leading columns of a zero matrix of shape
(row count, pad_max_len) — when the code matrix is wider than `pad_max_len`
that array assignment fails, modelled by `none`; `torch.cuda.is_available()`
only decides whether the resulting tensors are moved to the GPU. -/
def preprocess (cudaAvailable : Bool) (df : List String) (pad_max_len : Nat) :
    Option (Tensor2D × Tensor1D) :=
  let rows := df.take 32
  let encoded := str2ascii rows
  let seq_len_arr := encoded.map Prod.fst
  if batchWidth rows ≤ pad_max_len then
    some
      (⟨encoded.map fun e =>
          e.2 ++ List.replicate (pad_max_len - batchWidth rows) 0,
        cudaAvailable⟩,
       ⟨seq_len_arr, cudaAvailable⟩)
  else none

/-- The device-independent content of a `preprocess` result: the integer
entries of the sequence tensor and of the length tensor. -/
def tensorValues :
    Option (Tensor2D × Tensor1D) → Option (List (List Nat) × List Nat) :=
  Option.map fun p => (p.1.data, p.2.data)

/-- C9: encoding is deterministic — on identical input (same string, same
maximum width) the encoder yields the identical encoded sequence and
recorded length, and the integer content of `preprocess` does not depend on
the ambient device state (`torch.cuda.is_available()`), the only
run-to-run-varying input of the encoding path. -/
theorem c9_encoding_deterministic :
    (∀ (W : Nat) (s : String), encodeDomain W s = encodeDomain W s) ∧
    (∀ (c₁ c₂ : Bool) (df : List String) (W : Nat),
      tensorValues (preprocess c₁ df W) = tensorValues (preprocess c₂ df W)) := by
  refine ⟨fun W s => rfl, fun c₁ c₂ df W => ?_⟩
  by_cases h : batchWidth (df.take 32) ≤ W <;>
    simp [preprocess, h, tensorValues]

/-- C10: `preprocess(df, pad_max_len)` encodes only the first 32 rows of the
dataframe: whenever it returns tensors, the sequence tensor and the length
tensor both have first dimension `min (number of rows) 32`, and the length
tensor is exactly the per-row character count of the first 32 rows — rows
beyond the 32nd are dropped. -/
theorem c10_preprocess_first_32 (cuda : Bool) (df : List String)
    (pad_max_len : Nat) (t : Tensor2D × Tensor1D)
    (h : preprocess cuda df pad_max_len = some (t.1, t.2)) :
    t.1.data.length = min df.length 32 ∧
    t.2.data.length = min df.length 32 ∧
    t.2.data = (df.take 32).map String.length := by
  by_cases hw : batchWidth (df.take 32) ≤ pad_max_len
  · simp only [preprocess, if_pos hw, Option.some.injEq] at h
    obtain ⟨h1, h2⟩ := Prod.mk.injEq .. ▸ h
    refine ⟨?_, ?_, ?_⟩
    · rw [← h1]
      simp [str2ascii, List.length_take, Nat.min_comm]
    · rw [← h2]
      simp [str2ascii, List.length_take, Nat.min_comm]
    · rw [← h2]
      simp only [str2ascii, List.map_map]
      rfl
  · simp [preprocess, if_neg hw] at h

/-- Witness for C10 on a concrete 3-row dataframe with pad_max_len = 10. -/
theorem c10_preprocess_first_32_witness :
    preprocess false ["google", "facebook", "xkqjzwpqor"] 10 =
      some (⟨[[103, 111, 111, 103, 108, 101, 0, 0, 0, 0],
              [102, 97, 99, 101, 98, 111, 111, 107, 0, 0],
              [120, 107, 113, 106, 122, 119, 112, 113, 111, 114]], false⟩,
            ⟨[6, 8, 10], false⟩) ∧
    ([[103, 111, 111, 103, 108, 101, 0, 0, 0, 0],
      [102, 97, 99, 101, 98, 111, 111, 107, 0, 0],
      [120, 107, 113, 106, 122, 119, 112, 113, 111, 114]] :
        List (List Nat)).length = min 3 32 ∧
    ([6, 8, 10] : List Nat).length = min 3 32 := by
  have h : preprocess false ["google", "facebook", "xkqjzwpqor"] 10 =
      some (⟨[[103, 111, 111, 103, 108, 101, 0, 0, 0, 0],
              [102, 97, 99, 101, 98, 111, 111, 107, 0, 0],
              [120, 107, 113, 106, 122, 119, 112, 113, 111, 114]], false⟩,
            ⟨[6, 8, 10], false⟩) := by decide
  have h2 := c10_preprocess_first_32 false
    ["google", "facebook", "xkqjzwpqor"] 10
    (⟨[[103, 111, 111, 103, 108, 101, 0, 0, 0, 0],
       [102, 97, 99, 101, 98, 111, 111, 107, 0, 0],
       [120, 107, 113, 106, 122, 119, 112, 113, 111, 114]], false⟩,
     ⟨[6, 8, 10], false⟩) h
  exact ⟨h, by decide, by decide⟩

/-- The architecture hyperparameters stored alongside the weights in a
checkpoint: layer count, vocabulary size, hidden size and class count
(the notebook's `N_LAYERS`, `CHAR_VOCAB`, `HIDDEN_SIZE`, `N_DOMAIN_TYPE`). -/
structure Hyperparams where
  n_layers : Nat
  char_vocab : Nat
  hidden_size : Nat
  n_domain_type : Nat
deriving DecidableEq

/-- Modelled from the spec: the state of a `DGADetector` model (the
`dga_detector.DGADetector` class is not under the repository's source
tree) — the architecture hyperparameters plus the serialized parameter
values (embedding matrix, GRU weights, output layer weights), flattened. -/
structure ModelState where
  hp : Hyperparams
  weights : List Int
deriving DecidableEq

/-- A checkpoint: a serialized snapshot of model parameters plus
architecture hyperparameters. -/
structure Checkpoint where
  hp : Hyperparams
  weights : List Int
deriving DecidableEq

/-- The content found at a path: a well-formed checkpoint or corrupt bytes. -/
inductive FileData where
  | corrupt : FileData
  | ckpt : Checkpoint → FileData
deriving DecidableEq

/-- A file path, split into the parent directory and the file name. -/
structure Path where
  dir : String
  file : String
deriving DecidableEq

/-- The file system as the checkpoint store sees it: the set of existing
directories and the contents found at each path (`none` = missing file). -/
structure FileSystem where
  dirs : List String
  contents : Path → Option FileData

/-- Modelled from the spec: `DGADetector.save_checkpoint(path)` (not under
the repository's source tree) serializes the current parameters plus
hyperparameters to a binary file at the given path, creating the parent
directory if absent. -/
def save_checkpoint (m : ModelState) (p : Path) (fs : FileSystem) :
    FileSystem :=
  { dirs := if p.dir ∈ fs.dirs then fs.dirs else p.dir :: fs.dirs,
    contents := fun q =>
      if q = p then some (.ckpt ⟨m.hp, m.weights⟩) else fs.contents q }

/-- The target vocabulary/class configuration of the detector doing the
loading (the notebook's `CHAR_VOCAB` and `N_DOMAIN_TYPE`). -/
structure DetectorConfig where
  char_vocab : Nat
  n_domain_type : Nat
deriving DecidableEq

/-- A stored hyperparameter block is compatible with the loading detector's
vocabulary/class configuration. -/
def hpCompatible (hp : Hyperparams) (cfg : DetectorConfig) : Bool :=
  hp.char_vocab == cfg.char_vocab && hp.n_domain_type == cfg.n_domain_type

/-- The errors `load_checkpoint` surfaces to the caller. -/
inductive LoadError where
  | fileMissing : LoadError
  | corruptFile : LoadError
  | hyperparamMismatch : LoadError
deriving DecidableEq

/-- Modelled from the spec: `DGADetector.load_checkpoint(path)` (not under
the repository's source tree) reconstructs a model of the stored shape and
populates its parameters; it fails with an error surfaced to the caller if
the file is missing or corrupt or the stored hyperparameters are
incompatible with the target vocabulary/class configuration. -/
def load_checkpoint (cfg : DetectorConfig) (fs : FileSystem) (p : Path) :
    Except LoadError ModelState :=
  match fs.contents p with
  | none => .error .fileMissing
  | some .corrupt => .error .corruptFile
  | some (.ckpt c) =>
      if hpCompatible c.hp cfg then .ok ⟨c.hp, c.weights⟩
      else .error .hyperparamMismatch

/-- Index of the largest score, first occurrence winning ties (the class
picked from the output scores of the forward pass). -/
def argmaxIdx (scores : List ℚ) : Nat :=
  match scores with
  | [] => 0
  | s :: rest =>
      (rest.foldl
        (fun acc x =>
          if acc.2.1 < x then (acc.2.2, x, acc.2.2 + 1)
          else (acc.1, acc.2.1, acc.2.2 + 1))
        ((0 : Nat), s, (1 : Nat))).1

/-- Modelled from the spec: `DGADetector.predict(domains)` (not under the
repository's source tree) encodes the domains, forward-passes them without
gradient tracking and returns the predicted class per input, in input
order, without mutating the model; the numeric forward pass of the RNN
classifier (`rnn_classifier.py`, also absent) is abstracted as a pure score
function `fwd` of the model state and the domain.  The returned pair is
(predictions, model state after the call). -/
def predict (fwd : ModelState → String → List ℚ) (m : ModelState)
    (domains : List String) : List Nat × ModelState :=
  (domains.map fun d => argmaxIdx (fwd m d), m)

/-- C3: for every trained model state, every path and every fixed set of
input domains, calling `save_checkpoint(path)` and then `load_checkpoint(path)`
on a fresh detector whose configuration the stored hyperparameters are
compatible with succeeds and yields a model whose predictions on that input
set are bit-identical to the original model's predictions, for any forward
function — save/load round-trips exactly. -/
theorem c3_checkpoint_roundtrip (m : ModelState) (p : Path)
    (fs : FileSystem) (cfg : DetectorConfig)
    (hcompat : hpCompatible m.hp cfg = true) :
    load_checkpoint cfg (save_checkpoint m p fs) p = .ok m ∧
    ∀ (m₂ : ModelState),
      load_checkpoint cfg (save_checkpoint m p fs) p = .ok m₂ →
      ∀ (fwd : ModelState → String → List ℚ) (domains : List String),
        (predict fwd m₂ domains).1 = (predict fwd m domains).1 := by
  have hload : load_checkpoint cfg (save_checkpoint m p fs) p = .ok m := by
    simp [load_checkpoint, save_checkpoint, hcompat]
  refine ⟨hload, fun m₂ h₂ fwd domains => ?_⟩
  rw [hload] at h₂
  cases h₂
  rfl

/-- Witness for C3 at a concrete model, path, empty file system and
matching configuration, with a concrete forward function and input set. -/
theorem c3_checkpoint_roundtrip_witness :
    (hpCompatible (⟨3, 128, 100, 2⟩ : Hyperparams) ⟨128, 2⟩ = true) ∧
    (load_checkpoint ⟨128, 2⟩
        (save_checkpoint ⟨⟨3, 128, 100, 2⟩, [1, -2, 3]⟩
          ⟨"models", "rnn_classifier.bin"⟩ ⟨[], fun _ => none⟩)
        ⟨"models", "rnn_classifier.bin"⟩ =
      .ok ⟨⟨3, 128, 100, 2⟩, [1, -2, 3]⟩) := by
  have h := c3_checkpoint_roundtrip ⟨⟨3, 128, 100, 2⟩, [1, -2, 3]⟩
    ⟨"models", "rnn_classifier.bin"⟩ ⟨[], fun _ => none⟩ ⟨128, 2⟩ (by decide)
  exact ⟨by decide, h.1⟩

/-- C4: for every model state and every sequence of input domains,
`predict(domains)` returns exactly one predicted class per input, in input
order, leaves the model state unchanged, and calling it twice on the same
input with no training in between yields identical output both times. -/
theorem c4_predict_pure (fwd : ModelState → String → List ℚ)
    (m : ModelState) (domains : List String) :
    (predict fwd m domains).1.length = domains.length ∧
    (predict fwd m domains).1 =
      domains.map (fun d => argmaxIdx (fwd m d)) ∧
    (predict fwd m domains).2 = m ∧
    predict fwd (predict fwd m domains).2 domains =
      predict fwd m domains := by
  refine ⟨?_, rfl, rfl, rfl⟩
  simp [predict]

/-- C5: for every path, `load_checkpoint(path)` either reconstructs a model
of the shape stored in the checkpoint and populates its parameters, or
fails with an error surfaced to the caller; it fails exactly when the file
is missing, the file is corrupt, or the stored hyperparameters are
incompatible with the target vocabulary/class configuration — and a
hyperparameter mismatch never loads silently. -/
theorem c5_load_checkpoint_errors (cfg : DetectorConfig) (fs : FileSystem)
    (p : Path) :
    (∀ m : ModelState, load_checkpoint cfg fs p = .ok m →
      ∃ c : Checkpoint, fs.contents p = some (.ckpt c) ∧
        hpCompatible c.hp cfg = true ∧ m = ⟨c.hp, c.weights⟩) ∧
    (fs.contents p = none →
      load_checkpoint cfg fs p = .error .fileMissing) ∧
    (fs.contents p = some .corrupt →
      load_checkpoint cfg fs p = .error .corruptFile) ∧
    (∀ c : Checkpoint, fs.contents p = some (.ckpt c) →
      hpCompatible c.hp cfg = false →
      load_checkpoint cfg fs p = .error .hyperparamMismatch) ∧
    (∀ c : Checkpoint, fs.contents p = some (.ckpt c) →
      hpCompatible c.hp cfg = true →
      load_checkpoint cfg fs p = .ok ⟨c.hp, c.weights⟩) := by
  refine ⟨fun m hm => ?_, fun h => ?_, fun h => ?_,
    fun c hc hbad => ?_, fun c hc hgood => ?_⟩
  · cases hfs : fs.contents p with
    | none => simp [load_checkpoint, hfs] at hm
    | some fd =>
        cases fd with
        | corrupt => simp [load_checkpoint, hfs] at hm
        | ckpt c =>
            by_cases hcomp : hpCompatible c.hp cfg = true
            · simp [load_checkpoint, hfs, hcomp] at hm
              exact ⟨c, rfl, hcomp, hm.symm⟩
            · simp [load_checkpoint, hfs, hcomp] at hm
  · simp [load_checkpoint, h]
  · simp [load_checkpoint, h]
  · simp [load_checkpoint, hc, hbad]
  · simp [load_checkpoint, hc, hgood]

/-- Witness for C5 at a concrete configuration and file system: a stored
checkpoint whose vocabulary size disagrees with the target configuration is
refused with a hyperparameter-mismatch error, not loaded silently. -/
theorem c5_load_checkpoint_errors_witness :
    ((FileSystem.mk []
        (fun q => if q = ⟨"models", "old.bin"⟩ then
          some (.ckpt ⟨⟨3, 64, 100, 2⟩, [7]⟩) else none)).contents
        ⟨"models", "old.bin"⟩ = some (.ckpt ⟨⟨3, 64, 100, 2⟩, [7]⟩)) ∧
    (hpCompatible (⟨3, 64, 100, 2⟩ : Hyperparams) ⟨128, 2⟩ = false) ∧
    (load_checkpoint ⟨128, 2⟩
        (FileSystem.mk []
          (fun q => if q = ⟨"models", "old.bin"⟩ then
            some (.ckpt ⟨⟨3, 64, 100, 2⟩, [7]⟩) else none))
        ⟨"models", "old.bin"⟩ = .error .hyperparamMismatch) := by
  refine ⟨by decide, by decide, ?_⟩
  exact (c5_load_checkpoint_errors ⟨128, 2⟩
    (FileSystem.mk []
      (fun q => if q = ⟨"models", "old.bin"⟩ then
        some (.ckpt ⟨⟨3, 64, 100, 2⟩, [7]⟩) else none))
    ⟨"models", "old.bin"⟩).2.2.2.1 ⟨⟨3, 64, 100, 2⟩, [7]⟩ (by decide) (by decide)

/-- C6: for every path, `save_checkpoint(path)` serializes the current model
parameters plus the hyperparameters (layer count, vocabulary size, hidden
size, class count) to a file at that path, and itself ensures the path's
parent directory exists afterwards — also when it was absent beforehand, so
the caller does not need to create it first. -/
theorem c6_save_checkpoint (m : ModelState) (p : Path) (fs : FileSystem) :
    (save_checkpoint m p fs).contents p =
      some (.ckpt ⟨m.hp, m.weights⟩) ∧
    p.dir ∈ (save_checkpoint m p fs).dirs := by
  constructor
  · simp [save_checkpoint]
  · by_cases h : p.dir ∈ fs.dirs <;>
      simp [save_checkpoint, h]

/-- One labeled training example: a domain string and its class label
(benign = 0, DGA = 1). -/
structure LabeledDomain where
  domain : String
  label : Nat
deriving DecidableEq

/-- Fuel-driven helper for `toBatches`: split a list into consecutive
chunks of `n` elements (the last chunk possibly shorter), the fuel bounding
the number of chunks produced. -/
def toBatchesAux (n : Nat) : Nat → List α → List (List α)
  | 0, _ => []
  | _, [] => []
  | fuel + 1, x :: xs => (x :: xs).take n :: toBatchesAux n fuel ((x :: xs).drop n)

/-- The `DataLoader`'s chunking (modelled from the spec: `dataloader.py` is
not under the repository's source tree): consecutive mini-batches of
`batch_size` examples in dataset order, the last batch possibly smaller. -/
def toBatches (batch_size : Nat) (xs : List α) : List (List α) :=
  toBatchesAux batch_size xs.length xs

/-- Run all training batches of one epoch: per batch encode/forward/loss/
backward/update (the numeric step, living in the absent `rnn_classifier.py`
and `dga_detector.py`, is abstracted as `step`, which maps a model state and
a batch to the updated state and the batch's cross-entropy loss), threading
the model state and accumulating the per-batch losses. -/
def train_batches (step : ModelState → List LabeledDomain → ModelState × ℚ)
    (m : ModelState) (bs : List (List LabeledDomain)) : ModelState × ℚ :=
  bs.foldl (fun acc b => ((step acc.1 b).1, acc.2 + (step acc.1 b).2)) (m, 0)

/-- No-gradient evaluation pass: accuracy as the exact-match fraction
between predicted class and true label over all evaluation batches
(`classify` abstracts the forward pass plus argmax). -/
def eval_accuracy (classify : ModelState → String → Nat) (m : ModelState)
    (bs : List (List LabeledDomain)) : ℚ :=
  ((bs.flatten.countP fun e => classify m e.domain == e.label : Nat) : ℚ) /
    ((bs.flatten.length : Nat) : ℚ)

/-- Modelled from the spec: one epoch of `DGADetector.train_model` (not
under the repository's source tree) — first process all training batches,
then run a no-gradient forward pass over all evaluation batches and compute
the exact-match accuracy.  Returns the updated model, the accumulated
training loss and the evaluation accuracy. -/
def train_epoch (step : ModelState → List LabeledDomain → ModelState × ℚ)
    (classify : ModelState → String → Nat) (m : ModelState)
    (trainBs evalBs : List (List LabeledDomain)) : ModelState × ℚ × ℚ :=
  let tr := train_batches step m trainBs
  (tr.1, tr.2, eval_accuracy classify tr.1 evalBs)

/-- Modelled from the spec: `DGADetector.train_model(train_data, labels,
batch_size, epochs, train_size)` (not under the repository's source tree) —
pair the domains with their labels, split once into train/test by the given
fraction, chunk both into mini-batches, and run `train_epoch` for the given
number of epochs, collecting each epoch's (loss, accuracy) report. -/
def train_model (step : ModelState → List LabeledDomain → ModelState × ℚ)
    (classify : ModelState → String → Nat)
    (train_data : List String) (labels : List Nat)
    (batch_size epochs : Nat) (train_size : ℚ) (m₀ : ModelState) :
    ModelState × List (ℚ × ℚ) :=
  let data := (train_data.zip labels).map fun q => LabeledDomain.mk q.1 q.2
  let k := (⌊train_size * (data.length : ℚ)⌋).toNat
  let trainBs := toBatches batch_size (data.take k)
  let evalBs := toBatches batch_size (data.drop k)
  (List.range epochs).foldl
    (fun acc _ =>
      let e := train_epoch step classify acc.1 trainBs evalBs
      (e.1, acc.2 ++ [(e.2.1, e.2.2)]))
    (m₀, [])

theorem train_batches_loss_nonneg
    (step : ModelState → List LabeledDomain → ModelState × ℚ)
    (hstep : ∀ m b, 0 ≤ (step m b).2)
    (bs : List (List LabeledDomain)) (m : ModelState) :
    0 ≤ (train_batches step m bs).2 := by
  suffices h : ∀ acc : ModelState × ℚ, 0 ≤ acc.2 →
      0 ≤ (bs.foldl
        (fun acc b => ((step acc.1 b).1, acc.2 + (step acc.1 b).2)) acc).2 by
    exact h (m, 0) le_rfl
  induction bs with
  | nil => intro acc hacc; exact hacc
  | cons b rest ih =>
      intro acc hacc
      exact ih _ (add_nonneg hacc (hstep acc.1 b))

theorem eval_accuracy_bounds (classify : ModelState → String → Nat)
    (m : ModelState) (bs : List (List LabeledDomain)) :
    0 ≤ eval_accuracy classify m bs ∧ eval_accuracy classify m bs ≤ 1 := by
  unfold eval_accuracy
  constructor
  · exact div_nonneg (Nat.cast_nonneg _) (Nat.cast_nonneg _)
  · rcases Nat.eq_zero_or_pos bs.flatten.length with h | h
    · rw [h]
      simp
    · rw [div_le_one (by exact_mod_cast h)]
      exact_mod_cast List.countP_le_length _

theorem train_model_reports_sound
    (step : ModelState → List LabeledDomain → ModelState × ℚ)
    (classify : ModelState → String → Nat)
    (trainBs evalBs : List (List LabeledDomain))
    (P : ℚ × ℚ → Prop)
    (hP : ∀ m : ModelState,
      P ((train_batches step m trainBs).2,
         eval_accuracy classify (train_batches step m trainBs).1 evalBs))
    (l : List Nat) (acc : ModelState × List (ℚ × ℚ))
    (hacc : ∀ r ∈ acc.2, P r) :
    ∀ r ∈ (l.foldl
      (fun acc _ =>
        let e := train_epoch step classify acc.1 trainBs evalBs
        (e.1, acc.2 ++ [(e.2.1, e.2.2)])) acc).2, P r := by
  induction l generalizing acc with
  | nil => exact hacc
  | cons x rest ih =>
      refine ih _ ?_
      intro r hr
      rcases List.mem_append.mp hr with h | h
      · exact hacc r h
      · rcases List.mem_singleton.mp h with rfl
        exact hP acc.1

/-- C7: each epoch of `train_model` first processes all training batches and
then runs a no-gradient forward pass over all evaluation batches with
accuracy the exact-match fraction between predicted class and true label;
for every labeled dataset, batch size, epoch count and split fraction,
whenever each batch step's cross-entropy loss is non-negative (as cross
entropy is), every reported epoch accuracy lies in [0, 1] and every
reported epoch loss is non-negative (and finite, being a rational). -/
theorem c7_train_model_reports
    (step : ModelState → List LabeledDomain → ModelState × ℚ)
    (classify : ModelState → String → Nat)
    (train_data : List String) (labels : List Nat)
    (batch_size epochs : Nat) (train_size : ℚ) (m₀ : ModelState)
    (hstep : ∀ m b, 0 ≤ (step m b).2) :
    (∀ (m : ModelState) (trainBs evalBs : List (List LabeledDomain)),
      train_epoch step classify m trainBs evalBs =
        ((train_batches step m trainBs).1,
         (train_batches step m trainBs).2,
         eval_accuracy classify (train_batches step m trainBs).1 evalBs)) ∧
    ∀ r ∈ (train_model step classify train_data labels
            batch_size epochs train_size m₀).2,
      0 ≤ r.1 ∧ 0 ≤ r.2 ∧ r.2 ≤ 1 := by
  refine ⟨fun m trainBs evalBs => rfl, ?_⟩
  unfold train_model
  refine train_model_reports_sound step classify _ _ _ ?_ _ _ (by simp)
  intro m
  exact ⟨train_batches_loss_nonneg step hstep _ m,
    (eval_accuracy_bounds classify _ _).1,
    (eval_accuracy_bounds classify _ _).2⟩

/-- Witness for C7 on the toy dataset of the claim: 4 labeled examples,
batch size 2, 1 epoch, split fraction 1/2, with a concrete non-negative
per-batch loss and a concrete classifier: the single epoch report is
(loss 2, accuracy 1/2), which satisfies the bounds. -/
theorem c7_train_model_reports_witness :
    (train_model (fun m b => (m, (b.length : ℚ))) (fun _ _ => 0)
        ["google", "facebook", "xkqjzwpqor", "abc"] [0, 1, 1, 0]
        2 1 (1 / 2) ⟨⟨3, 128, 100, 2⟩, []⟩).2 = [(2, 1 / 2)] ∧
    (0 ≤ (2 : ℚ) ∧ 0 ≤ (1 / 2 : ℚ) ∧ (1 / 2 : ℚ) ≤ 1) := by
  have hrep : (train_model (fun m b => (m, (b.length : ℚ))) (fun _ _ => 0)
      ["google", "facebook", "xkqjzwpqor", "abc"] [0, 1, 1, 0]
      2 1 (1 / 2) ⟨⟨3, 128, 100, 2⟩, []⟩).2 = [(2, 1 / 2)] := by
    norm_num [train_model, train_epoch, train_batches, eval_accuracy,
      toBatches, toBatchesAux, List.zip, List.zipWith, Int.toNat_ofNat,
      List.range_succ, List.range_zero]
  refine ⟨hrep, ?_⟩
  have h := (c7_train_model_reports (fun m b => (m, (b.length : ℚ)))
      (fun _ _ => 0) ["google", "facebook", "xkqjzwpqor", "abc"] [0, 1, 1, 0]
      2 1 (1 / 2) ⟨⟨3, 128, 100, 2⟩, []⟩
      (fun m b => Nat.cast_nonneg b.length)).2 (2, 1 / 2)
      (by rw [hrep]; exact List.mem_singleton.mpr rfl)
  exact h

/-- The arguments of a `torch.onnx.export` call that determine the exported
graph's interface: target file, whether parameters are stored, opset
version, constant folding, the declared input and output tensor names, and,
per named tensor, the axes declared dynamic. -/
structure OnnxExportArgs where
  fileName : String
  storeParams : Bool
  opsetVersion : Nat
  doConstantFolding : Bool
  inputNames : List String
  outputNames : List String
  dynamicAxes : List (String × List Nat)
deriving DecidableEq

/-- The `torch.onnx.export(...)` call of the notebook's export cell,
argument for argument. -/
def onnxExportCall : OnnxExportArgs :=
  { fileName := "model.onnx",
    storeParams := true,
    opsetVersion := 10,
    doConstantFolding := true,
    inputNames := ["domains", "seq_lengths"],
    outputNames := ["output"],
    dynamicAxes := [("domains", [0]), ("seq_lengths", [0]), ("output", [0])] }

/-- The interface of an exported static graph: its named tensors (inputs
followed by outputs) and the declared-dynamic axes of each. -/
structure OnnxGraph where
  namedTensors : List String
  dynamicDims : List (String × List Nat)
deriving DecidableEq

/-- Modelled from the spec: `torch.onnx.export` (library code, outside the
repository) writes a static graph file whose named tensors are exactly the
declared input names followed by the declared output names and whose
dynamic axes are exactly those passed in `dynamic_axes`. -/
def onnxExport (args : OnnxExportArgs) : OnnxGraph :=
  { namedTensors := args.inputNames ++ args.outputNames,
    dynamicDims := args.dynamicAxes }

/-- C8: the export step produces a static graph with exactly three named
tensors — inputs `domains` (integer sequence tensor) and `seq_lengths`
(integer vector) and output `output` (class scores) — and the batch
dimension (axis 0) of all three is declared dynamic. -/
theorem c8_onnx_export_interface :
    (onnxExport onnxExportCall).namedTensors =
      ["domains", "seq_lengths", "output"] ∧
    (onnxExport onnxExportCall).namedTensors.length = 3 ∧
    (onnxExport onnxExportCall).dynamicDims =
      [("domains", [0]), ("seq_lengths", [0]), ("output", [0])] ∧
    onnxExportCall.inputNames = ["domains", "seq_lengths"] ∧
    onnxExportCall.outputNames = ["output"] := by
  refine ⟨rfl, rfl, rfl, rfl, rfl⟩

end DGADetection
